import Mathlib

/-!
Verification development for the JOEL QR gateway (Express server in
`index.ts`): a shallow embedding of the target-resolution pipeline of the
`/qrcode` and `/` handlers, of the QR/logo/frame image-composition geometry
(`generateQrWithLogo` and the frame compositing block), and of the landing
page assembly, together with theorems about the behaviour of these
functions.  External collaborators (the JORFSearch directory client, the
frame and logo image files, the environment configuration) are modelled as
parameters; JavaScript primitives used by the source (`Math.floor`,
`Math.round`, `parseInt`, `Boolean`, `String.prototype.replace`,
`encodeURI`) are given explicit executable models.
-/

namespace QrJoel

/-! ## JavaScript primitive models -/

/-- Model of JavaScript `Math.round` on an exact rational: round half towards
positive infinity, `Math.round x = ⌊x + 1/2⌋`. -/
def jsRoundQ (x : ℚ) : Int := Int.floor (x + 1/2)

/-- Model of JavaScript `Math.floor` on an exact rational. -/
def mathFloorQ (x : ℚ) : Int := Int.floor x

/-- Executable `Math.floor(n/d)` for an integer numerator and a natural
denominator: floor division.  Equal to `mathFloorQ ((n : ℚ)/d)`, see
`floorDiv_eq_floor`. -/
def floorDiv (n : Int) (d : Nat) : Int := Int.fdiv n d

/-- Executable `Math.round(n/d)` for an integer numerator and a natural
denominator: `⌊n/d + 1/2⌋ = ⌊(2n+d)/(2d)⌋`.  Equal to
`jsRoundQ ((n : ℚ)/d)` for `0 < d`, see `jsRoundDiv_eq`. -/
def jsRoundDiv (n : Int) (d : Nat) : Int := floorDiv (2*n + d) (2*d)

/-- Fuelled scanner behind `jsReplaceFirst` (structural recursion on the fuel
so that concrete runs reduce inside the kernel): find the leftmost occurrence
of `pat`, returning the input with that occurrence replaced by `repl`, or
`none` when `pat` does not occur. -/
def jsReplaceFirstFuel (pat repl : List Char) : Nat → List Char → Option (List Char)
  | 0, _ => none
  | fuel+1, xs =>
    if pat.isPrefixOf xs then some (repl ++ xs.drop pat.length)
    else
      match xs with
      | [] => none
      | c :: rest => (jsReplaceFirstFuel pat repl fuel rest).map (fun ys => c :: ys)

/-- Model of JavaScript `String.prototype.replace` with a string pattern:
replace only the first occurrence of `pat` in `s` (the source relies on this
single-occurrence behaviour, e.g. `startCommand.replace("Suivre", "Rechercher")`
and the `{PLACEHOLDER}` template substitutions). -/
def jsReplaceFirst (s pat repl : String) : String :=
  match jsReplaceFirstFuel pat.data repl.data (s.data.length + 1) s.data with
  | some ys => String.mk ys
  | none => s

/-- Fuelled scanner behind `jsSplit` (structural recursion on the fuel so
that concrete runs reduce inside the kernel). -/
def jsSplitFuel (sep : List Char) : Nat → List Char → List Char → List (List Char)
  | 0, _, acc => [acc.reverse]
  | _+1, [], acc => [acc.reverse]
  | fuel+1, c :: rest, acc =>
    if sep.isPrefixOf (c :: rest) then
      acc.reverse :: jsSplitFuel sep fuel (List.drop (sep.length - 1) rest) []
    else jsSplitFuel sep fuel rest (c :: acc)

/-- Model of JavaScript `String.prototype.split` with a non-empty string
separator: split on each non-overlapping occurrence, keeping empty segments
(so `"Jean ".split(" ")` has two segments and `" Jean".split(" ")` has two).
The source uses it only as `name.split(" ")`. -/
def jsSplit (s sep : String) : List String :=
  (jsSplitFuel sep.data s.data.length s.data []).map String.mk

/-- ASCII model of JavaScript `String.prototype.toUpperCase` on one
character (the identifiers it is applied to are ASCII Wikidata ids). -/
def jsToUpperChar (c : Char) : Char :=
  if 97 ≤ c.toNat ∧ c.toNat ≤ 122 then Char.ofNat (c.toNat - 32) else c

/-- ASCII model of JavaScript `String.prototype.toUpperCase`. -/
def jsToUpperCase (s : String) : String := String.mk (s.data.map jsToUpperChar)

/-- Model of JavaScript `String.prototype.startsWith`. -/
def jsStartsWith (s pre : String) : Bool := pre.data.isPrefixOf s.data

/-- Digit run at the head of a character list, for the `parseInt` model. -/
def leadingDigits (cs : List Char) : List Char := cs.takeWhile Char.isDigit

/-- Numeric value of a list of decimal digits. -/
def digitsVal (ds : List Char) : Nat := ds.foldl (fun a c => a * 10 + (c.toNat - 48)) 0

/-- Model of JavaScript `parseInt` in base 10: skip leading whitespace, accept
an optional sign, then read a maximal run of decimal digits; `none` models
`NaN` (no digits found). -/
def jsParseInt (s : String) : Option Int :=
  let cs := s.data.dropWhile Char.isWhitespace
  match cs with
  | '-' :: rest =>
      let d := leadingDigits rest
      if d.isEmpty then none else some (-(digitsVal d : Int))
  | '+' :: rest =>
      let d := leadingDigits rest
      if d.isEmpty then none else some (digitsVal d : Int)
  | _ =>
      let d := leadingDigits cs
      if d.isEmpty then none else some (digitsVal d : Int)

/-- Model of JavaScript `Boolean(s)` on a string: truthy iff non-empty.  The
source applies this to `req.query.verify`, so the query value `"false"` is
truthy and only the empty string disables verification. -/
def jsBooleanString (s : String) : Bool := s != ""

/-- Characters `encodeURI` leaves unescaped: ASCII alphanumerics, the marks
`- _ . ! ~ * ' ( )` and the reserved characters `; / ? : @ & = + $ , #`
(the apostrophe, code 39, is tested by code point). -/
def isURIUnescaped (c : Char) : Bool :=
  c.isAlphanum || "-_.!~*();/?:@&=+$,#".data.contains c || c.toNat == 39

/-- UTF-8 bytes of a character, for percent-encoding. -/
def utf8Bytes (c : Char) : List Nat :=
  let n := c.toNat
  if n < 0x80 then [n]
  else if n < 0x800 then [0xC0 + n / 0x40, 0x80 + n % 0x40]
  else if n < 0x10000 then
    [0xE0 + n / 0x1000, 0x80 + n / 0x40 % 0x40, 0x80 + n % 0x40]
  else
    [0xF0 + n / 0x40000, 0x80 + n / 0x1000 % 0x40, 0x80 + n / 0x40 % 0x40,
      0x80 + n % 0x40]

/-- Uppercase hexadecimal digit. -/
def hexDigit (n : Nat) : Char :=
  if n < 10 then Char.ofNat (48 + n) else Char.ofNat (55 + n)

/-- Percent-encoding of one byte, e.g. `32 ↦ "%20"`. -/
def percentByte (b : Nat) : String :=
  String.mk ['%', hexDigit (b / 16), hexDigit (b % 16)]

/-- Model of JavaScript `encodeURI`: keep unescaped characters, percent-encode
the UTF-8 bytes of everything else (a space becomes `%20`). -/
def encodeURI (s : String) : String :=
  String.join (s.data.map fun c =>
    if isURIUnescaped c then String.singleton c
    else String.join ((utf8Bytes c).map percentByte))

/-! ## Data model

The externally supplied entities: query parameters, directory (JORFSearch)
responses, environment configuration, and raster image dimensions. -/

/-- Pixel dimensions of a raster image (frame template, logo, QR bitmap). -/
structure Dims where
  width : Nat
  height : Nat
deriving DecidableEq, Repr

/-- A person record as returned by `callJORFSearchPeople`. -/
structure PersonRecord where
  prenom : String
  nom : String
deriving DecidableEq, Repr

/-- An organisation record as returned by
`callJORFSearchOrganisationByWikidataId`. -/
structure OrganisationRecord where
  id : String
  name : String
deriving DecidableEq, Repr

/-- The JORFSearch directory client, modelled as an oracle: the handlers only
inspect the returned match lists (for tags only emptiness is inspected, so tag
records are opaque). -/
structure Directory where
  callJORFSearchPeople : String → List PersonRecord
  callJORFSearchOrganisationByWikidataId : String → List OrganisationRecord
  callJORFSearchTag : String → List Unit

/-- A record of one directory call issued by a handler, in order. -/
inductive DirCall where
  | people (q : String)
  | organisation (q : String)
  | tag (q : String)
deriving DecidableEq, Repr

/-- The `FollowType` union of the source. -/
inductive FollowType where
  | people
  | function_tag
  | organisation
deriving DecidableEq, Repr

/-- Recognized query parameters of the `/qrcode` and `/` endpoints; `none`
models an absent parameter (`undefined`), `some s` a supplied string value. -/
structure Query where
  name : Option String := none
  organisation_id : Option String := none
  function_tag : Option String := none
  verify : Option String := none
  size : Option String := none
  frame : Option String := none
deriving DecidableEq, Repr

/-- Environment-derived configuration (the destructured `process.env` values
and `NODE_ENV`), from which the link bases and application URLs are built. -/
structure Config where
  isDev : Bool
  appPort : Nat
  telegramBotName : Option String := none
  whatsappPhone : Option String := none
  matrixBotUsername : Option String := none
  tchapBotUsername : Option String := none

/-- The fixed marketing site `HOME_WEBSITE_URL = "joel-officiel.fr"`. -/
def HOME_WEBSITE_URL : String := "joel-officiel.fr"

/-- `APP_DOMAIN`: `localhost` in development, the links domain otherwise. -/
def Config.APP_DOMAIN (c : Config) : String :=
  if c.isDev then "localhost" else "links.joel-officiel.fr"

/-- `APP_URL`: scheme (`http` in dev, `https` otherwise) plus domain. -/
def Config.APP_URL (c : Config) : String :=
  "http" ++ (if c.isDev then "" else "s") ++ "://" ++ c.APP_DOMAIN

/-- `APP_URL_WITH_PORT`. -/
def Config.APP_URL_WITH_PORT (c : Config) : String :=
  c.APP_URL ++ ":" ++ toString c.appPort

/-- `APP_URL_WITH_PORT_QR`. -/
def Config.APP_URL_WITH_PORT_QR (c : Config) : String :=
  c.APP_URL_WITH_PORT ++ "/qrcode"

/-- `whatsappLinkBase`: built from the phone number when that value is truthy
(non-empty), `null` otherwise. -/
def Config.whatsappLinkBase (c : Config) : Option String :=
  match c.whatsappPhone with
  | some p => if p ≠ "" then some ("https://wa.me/" ++ p ++ "?text=Bonjour JOEL!") else none
  | none => none

/-- `telegramLinkBase`. -/
def Config.telegramLinkBase (c : Config) : Option String :=
  match c.telegramBotName with
  | some n => if n ≠ "" then some ("https://t.me/" ++ n ++ "?text=Bonjour JOEL!") else none
  | none => none

/-- `matrixLinkBase`. -/
def Config.matrixLinkBase (c : Config) : Option String :=
  match c.matrixBotUsername with
  | some u => if u ≠ "" then some ("https://matrix.to/#/@" ++ u) else none
  | none => none

/-- `tchapLinkBase`. -/
def Config.tchapLinkBase (c : Config) : Option String :=
  match c.tchapBotUsername with
  | some u => if u ≠ "" then some ("https://www.tchap.gouv.fr/#/@" ++ u) else none
  | none => none

/-- `hasWhatsapp` (`!= null` test on the raw environment value). -/
def Config.hasWhatsapp (c : Config) : Bool := c.whatsappPhone.isSome

/-- `hasTelegram`. -/
def Config.hasTelegram (c : Config) : Bool := c.telegramBotName.isSome

/-- `hasMatrix`. -/
def Config.hasMatrix (c : Config) : Bool := c.matrixBotUsername.isSome

/-- `hasTchap`. -/
def Config.hasTchap (c : Config) : Bool := c.tchapBotUsername.isSome

/-! ## Constants of the source -/

/-- `DEFAULT_QRCODE_SIZE = 500`. -/
def DEFAULT_QRCODE_SIZE : Nat := 500

/-- `FONT_SIZE = 40`. -/
def FONT_SIZE : Nat := 40

/-- Default `qrSize` parameter of `generateQrWithLogo`. -/
def GEN_QR_SIZE_DEFAULT : Nat := 600

/-- Default `logoScale` parameter of `generateQrWithLogo` (`0.45`). -/
def GEN_LOGO_SCALE_DEFAULT : ℚ := mkRat 45 100

/-- `PAGE_TITLE_DEFAULT`. -/
def PAGE_TITLE_DEFAULT : String := "JOEL - Journal Electronique"

/-- `PAGE_TITLE_WITH_NAME`. -/
def PAGE_TITLE_WITH_NAME : String := "Suivre {NAME} sur JOEL - Journal Electronique"

/-- Error body of the size/frame conflict check (the source's typo preserved). -/
def ERR_SIZE_FRAME : String := "Cannot use fixed size and frame at the same tile."

/-- Error body of the person-name token check. -/
def ERR_NAME_WORDS : String :=
  "Name parameter must be composed two words minimum: firstname lastname."

/-- Error body of the parameter-exclusivity check. -/
def ERR_EXCLUSIVE : String :=
  "Parameters people, function_tag and organisations are exclusive."

/-- Error body when the person lookup returns no result. -/
def ERR_PERSON_NOT_FOUND (name : String) : String :=
  "No result found on JORFSearch for person \"" ++ name ++ "\"."

/-- Error body when the organisation lookup returns no result. -/
def ERR_ORG_NOT_FOUND (id : String) : String :=
  "No result found on JORFSearch for organisation \"" ++ id ++ "\"."

/-- Error body when the organisation lookup returns more than one result. -/
def ERR_TOO_MANY : String := "Too many results found on JORFSearch."

/-- Error body when the tag lookup returns no result. -/
def ERR_TAG_NOT_FOUND : String := "No result found on JORFSearch."

/-- Error body of the skip-verification organisation-id shape check. -/
def ERR_VERIFICATION_MANDATORY : String :=
  "Verification is mandatory when fetching organisation with WikidataId."

/-- Error body when no QR URL was initialized. -/
def ERR_QR_URL : String := "qr_url not initialized"

/-- Error body of the landing page when no follow label was produced. -/
def ERR_NO_LABEL : String := "Follow label not found."

/-! ## Image composition model (`generateQrWithLogo` and sharp calls) -/

/-- Model of `sharp(logo).resize({ width: w, fit: "inside" })` with only a
width constraint: the result is `w` pixels wide with the height scaled to
preserve the aspect ratio (rounded to the nearest pixel). -/
def sharpResizeInsideWidth (img : Dims) (w : Nat) : Dims :=
  ⟨w, (jsRoundDiv ((img.height : Int) * w) img.width).toNat⟩

/-- Output of `generateQrWithLogo`: the QR bitmap parameters handed to
`QRCode.toBuffer` plus the logo overlay geometry computed for the
`sharp(...).composite` call. -/
structure QrLogoOutput where
  url : String
  qrSize : Nat
  margin : Nat
  dark : String
  light : String
  targetLogoWidth : Nat
  logoDims : Dims
  logoLeft : Int
  logoTop : Int
deriving DecidableEq, Repr

/-- Shallow embedding of `generateQrWithLogo(qr_url, {qrSize, margin, dark,
light, logoPath, logoScale})`: encode the URL (the function applies `encodeURI`
to its argument before `QRCode.toBuffer`), resize the logo at `logoPath`
(whose pixel dimensions are the `logo` parameter) to `floor(qrSize*logoScale)`
width preserving aspect ratio, and centre it at
`Math.floor((qrSize - logoWidth)/2)`, `Math.floor((qrSize - logoHeight)/2)`. -/
def generateQrWithLogo (logo : Dims) (qr_url : String) (qrSize : Nat)
    (logoScale : ℚ) : QrLogoOutput :=
  let targetLogoWidth := (floorDiv ((qrSize : Int) * logoScale.num) logoScale.den).toNat
  let logoDims := sharpResizeInsideWidth logo targetLogoWidth
  { url := encodeURI qr_url
    qrSize := qrSize
    margin := 1
    dark := "#000000"
    light := "#ffffff"
    targetLogoWidth := targetLogoWidth
    logoDims := logoDims
    logoLeft := floorDiv ((qrSize : Int) - (logoDims.width : Int)) 2
    logoTop := floorDiv ((qrSize : Int) - (logoDims.height : Int)) 2 }

/-! ## `/qrcode` handler model -/

/-- The dynamic-text SVG overlay of the frame mode: an SVG of size
`frameW × (FONT_SIZE * 3)` whose single text element carries
`followLabel ?? ""` and is hidden (`display: none`) when `followLabel` is
falsy (absent or empty). -/
structure TextLayer where
  width : Nat
  height : Nat
  label : Option String
  textDisplayed : Bool
deriving DecidableEq, Repr

/-- One input of a sharp `composite` call. -/
inductive LayerInput where
  | qrImage (q : QrLogoOutput)
  | textSvg (t : TextLayer)
deriving DecidableEq, Repr

/-- One entry of a sharp `composite` array: an input plus its offsets. -/
structure CompositeOp where
  input : LayerInput
  left : Int
  top : Int
deriving DecidableEq, Repr

/-- The frame-mode output of `/qrcode`: the frame template (base) with the QR
bitmap and the text SVG layered on top. -/
structure FramedOutput where
  base : Dims
  qr : QrLogoOutput
  qrLeft : Int
  qrTop : Int
  text : TextLayer
  textLeft : Int
  textTop : Int
deriving DecidableEq, Repr

/-- The ordered layer list of the final `frame.composite([...])` call: the
frame is the base canvas, then the QR at its computed offset, then the text
line. -/
def FramedOutput.composites (f : FramedOutput) : List CompositeOp :=
  [⟨.qrImage f.qr, f.qrLeft, f.qrTop⟩, ⟨.textSvg f.text, f.textLeft, f.textTop⟩]

/-- Response of the `/qrcode` endpoint: a JSON error body with an HTTP
status, the raw QR PNG, or the framed composition PNG. -/
inductive QrcodeResponse where
  | jsonError (status : Nat) (msg : String)
  | rawImage (qr : QrLogoOutput)
  | framedImage (f : FramedOutput)
deriving DecidableEq, Repr

/-- QR bitmap of an image response, if any. -/
def QrcodeResponse.qrOutput : QrcodeResponse → Option QrLogoOutput
  | .rawImage q => some q
  | .framedImage f => some f.qr
  | .jsonError _ _ => none

/-- Text layer of a framed response, if any. -/
def QrcodeResponse.framedText : QrcodeResponse → Option TextLayer
  | .framedImage f => some f.text
  | _ => none

/-- Framed output of a response, with a throwaway default otherwise. -/
def QrcodeResponse.framedOrDefault : QrcodeResponse → FramedOutput
  | .framedImage f => f
  | _ => ⟨⟨0, 0⟩, generateQrWithLogo ⟨0, 0⟩ "" 0 0, 0, 0, ⟨0, 0, none, false⟩, 0, 0⟩

/-- Raw QR output of a response, with a throwaway default otherwise. -/
def QrcodeResponse.rawOrDefault : QrcodeResponse → QrLogoOutput
  | .rawImage q => q
  | _ => generateQrWithLogo ⟨0, 0⟩ "" 0 0

/-- `qr_code_size` of the `/qrcode` handler: `parseInt(req.query.size)`, with
the default `DEFAULT_QRCODE_SIZE = 500` when the result is `NaN` (including an
absent parameter, since `parseInt(undefined)` is `NaN`). -/
def qrCodeSizeOf (q : Query) : Int :=
  match q.size with
  | none => (DEFAULT_QRCODE_SIZE : Int)
  | some s =>
    match jsParseInt s with
    | none => (DEFAULT_QRCODE_SIZE : Int)
    | some n => n

/-- `frameEnabled` of the `/qrcode` handler: `true` unless the `frame`
parameter is supplied and equal to `"false"`. -/
def frameEnabledOf (q : Query) : Bool := !(q.frame == some "false")

/-- `verifyOnJORFSearch` before any per-kind adjustment: `true` when `verify`
is absent, otherwise `Boolean(req.query.verify)`. -/
def verifyParam (q : Query) : Bool :=
  match q.verify with
  | none => true
  | some s => jsBooleanString s

/-- Tail of the `/qrcode` handler after the `switch` (source lines 297-357):
reject when `qr_url` was never initialized, generate the QR+logo bitmap from
`encodeURI(qr_url)` with the generator defaults, and either send it raw or
composite it onto the frame with the QR at
`(Math.round((frameW - qr_code_size)/2), Math.round(frameH*0.45))` and the
text line at `(0, Math.round(frameH*0.35))`. -/
def qrcodeRender (frame logo : Dims) (qr_url followLabel : Option String)
    (frameEnabled : Bool) (qr_code_size : Int) (calls : List DirCall) :
    QrcodeResponse × List DirCall :=
  match qr_url with
  | none => (.jsonError 400 ERR_QR_URL, calls)
  | some u =>
    let qrBuffer := generateQrWithLogo logo (encodeURI u) GEN_QR_SIZE_DEFAULT
      GEN_LOGO_SCALE_DEFAULT
    if !frameEnabled then (.rawImage qrBuffer, calls)
    else
      let left := jsRoundDiv ((frame.width : Int) - qr_code_size) 2
      let top := jsRoundDiv ((frame.height : Int) * 45) 100
      let textLayer : TextLayer :=
        { width := frame.width
          height := FONT_SIZE * 3
          label := followLabel
          textDisplayed := match followLabel with
            | some s => s != ""
            | none => false }
      (.framedImage
        { base := frame
          qr := qrBuffer
          qrLeft := left
          qrTop := top
          text := textLayer
          textLeft := 0
          textTop := jsRoundDiv ((frame.height : Int) * 35) 100 }, calls)

/-- The `switch (followType)` of the `/qrcode` handler (source lines 244-296):
per-kind verification against the directory and construction of `qr_url` and
`followLabel`.  `verify` is the (possibly organisation-forced) value of
`verifyOnJORFSearch`. -/
def qrcodeSwitch (cfg : Config) (dir : Directory) (frame logo : Dims)
    (followType : Option FollowType) (name organisation_id function_tag : String)
    (verify : Bool) (frameEnabled : Bool) (qr_code_size : Int) :
    QrcodeResponse × List DirCall :=
  match followType with
  | some .people =>
    if verify then
      match dir.callJORFSearchPeople name with
      | [] => (.jsonError 400 (ERR_PERSON_NOT_FOUND name), [.people name])
      | r :: _ =>
        let prenomNom := r.prenom ++ " " ++ r.nom
        qrcodeRender frame logo
          (some (cfg.APP_URL_WITH_PORT ++ "?name=" ++ prenomNom))
          (some prenomNom) frameEnabled qr_code_size [.people name]
    else
      qrcodeRender frame logo
        (some (cfg.APP_URL_WITH_PORT ++ "?name=" ++ name))
        (some name) frameEnabled qr_code_size []
  | some .organisation =>
    if !verify && !(jsStartsWith organisation_id "Q") then
      (.jsonError 400 ERR_VERIFICATION_MANDATORY, [])
    else if verify then
      match dir.callJORFSearchOrganisationByWikidataId organisation_id with
      | [] => (.jsonError 400 (ERR_ORG_NOT_FOUND organisation_id),
          [.organisation organisation_id])
      | [r] =>
        qrcodeRender frame logo
          (some (cfg.APP_URL_WITH_PORT ++ "?&organisation=" ++ organisation_id))
          (some r.name) frameEnabled qr_code_size [.organisation organisation_id]
      | _ :: _ :: _ => (.jsonError 400 ERR_TOO_MANY, [.organisation organisation_id])
    else
      qrcodeRender frame logo none none frameEnabled qr_code_size []
  | some .function_tag =>
    if verify then
      match dir.callJORFSearchTag function_tag with
      | [] => (.jsonError 400 ERR_TAG_NOT_FOUND, [.tag function_tag])
      | _ :: _ =>
        qrcodeRender frame logo
          (some (cfg.APP_URL_WITH_PORT ++ "?&function_tag=" ++ function_tag))
          (some function_tag) frameEnabled qr_code_size [.tag function_tag]
    else
      qrcodeRender frame logo
        (some (cfg.APP_URL_WITH_PORT ++ "?&function_tag=" ++ function_tag))
        (some function_tag) frameEnabled qr_code_size []
  | none => qrcodeRender frame logo none none frameEnabled qr_code_size []

/-- `followType` after the `name` block of `/qrcode`: `people` when the
`name` parameter is non-empty. -/
def qrcodeFt1 (q : Query) : Option FollowType :=
  if 0 < (q.name.getD "").length then some .people else none

/-- `followType` after the `organisation_id` block of `/qrcode`. -/
def qrcodeFt2 (q : Query) : Option FollowType :=
  if 0 < (q.organisation_id.getD "").length then some .organisation else qrcodeFt1 q

/-- `followType` after the `function_tag` block of `/qrcode`. -/
def qrcodeFollowType (q : Query) : Option FollowType :=
  if 0 < (q.function_tag.getD "").length then some .function_tag else qrcodeFt2 q

/-- `verifyOnJORFSearch` after the parameter blocks of `/qrcode`: a non-empty
`organisation_id` forces it to `true` (the name must come from JORF). -/
def qrcodeVerify2 (q : Query) : Bool :=
  if 0 < (q.organisation_id.getD "").length then true else verifyParam q

/-- Shallow embedding of `app.get("/qrcode")` (source lines 185-377): size and
frame parsing, size/frame exclusivity, the three parameter blocks with their
mutual-exclusivity checks (an empty string counts as absent, `name` must split
on `" "` into at least two segments, a non-empty `organisation_id` forces
verification on), then the per-kind `switch` and the rendering tail.  The
second component records the directory calls issued, in order. -/
def qrcodeHandle (cfg : Config) (dir : Directory) (frame logo : Dims)
    (q : Query) : QrcodeResponse × List DirCall :=
  if q.size.isSome && frameEnabledOf q then (.jsonError 400 ERR_SIZE_FRAME, [])
  else if 0 < (q.name.getD "").length ∧ (jsSplit (q.name.getD "") " ").length < 2 then
    (.jsonError 400 ERR_NAME_WORDS, [])
  else if 0 < (q.organisation_id.getD "").length ∧ (qrcodeFt1 q).isSome then
    (.jsonError 400 ERR_EXCLUSIVE, [])
  else if 0 < (q.function_tag.getD "").length ∧ (qrcodeFt2 q).isSome then
    (.jsonError 400 ERR_EXCLUSIVE, [])
  else
    qrcodeSwitch cfg dir frame logo (qrcodeFollowType q) (q.name.getD "")
      (q.organisation_id.getD "") (q.function_tag.getD "") (qrcodeVerify2 q)
      (frameEnabledOf q) (qrCodeSizeOf q)

/-! ## `/` landing-page handler model -/

/-- Deep-link start-command verb per follow type (`"Rechercher "`,
`"SuivreO "`, `"SuivreF "` prefixes of the source's `switch`). -/
def startVerb : FollowType → String
  | .people => "Rechercher"
  | .organisation => "SuivreO"
  | .function_tag => "SuivreF"

/-- The rendered landing page, as the values substituted into the HTML
template: resolved target, page title, start command and its messenger
variant, the mobile QR `<img>` source if shown, the per-messenger blocks and
fully substituted deep links. -/
structure SlashPage where
  followType : FollowType
  followArg : String
  followLabel : String
  pageTitle : String
  startCommand : String
  smoothFlowCommand : String
  qrcodeImgSrc : Option String
  whatsappBlockShown : Bool
  telegramBlockShown : Bool
  matrixBlockShown : Bool
  tchapBlockShown : Bool
  whatsappLink : Option String
  telegramLink : Option String
  matrixLink : Option String
  tchapLink : Option String
deriving DecidableEq, Repr

/-- Response of the `/` endpoint: a JSON error body, a redirect, or the
rendered HTML landing page. -/
inductive SlashResponse where
  | jsonError (status : Nat) (msg : String)
  | redirect (url : String)
  | page (p : SlashPage)
deriving DecidableEq, Repr

/-- Follow label of a page response, if any. -/
def SlashResponse.pageLabel : SlashResponse → Option String
  | .page p => some p.followLabel
  | _ => none

/-- Follow argument of a page response, if any. -/
def SlashResponse.pageArg : SlashResponse → Option String
  | .page p => some p.followArg
  | _ => none

/-- Start command of a page response, if any. -/
def SlashResponse.pageStart : SlashResponse → Option String
  | .page p => some p.startCommand
  | _ => none

/-- Messenger-variant command of a page response, if any. -/
def SlashResponse.pageSmooth : SlashResponse → Option String
  | .page p => some p.smoothFlowCommand
  | _ => none

/-- Page of a response, with a throwaway default otherwise. -/
def SlashResponse.pageOrDefault : SlashResponse → SlashPage
  | .page p => p
  | _ => ⟨.people, "", "", "", "", "", none, false, false, false, false,
      none, none, none, none⟩

/-- Template-filling tail of the `/` handler (source lines 481-568): the
mobile QR block, the `followLabel` null check, the title substitution, the
`switch` on `followType` building the start command (whose `default` case
redirects to the marketing site), the `Suivre → Rechercher` rewrite for the
messenger deep links, and the per-messenger blocks and links. -/
def slashRender (cfg : Config) (followType : Option FollowType)
    (followArg followLabel qr_url : Option String) (isMobile : Bool)
    (calls : List DirCall) : SlashResponse × List DirCall :=
  let qrcodeImgSrc :=
    match qr_url with
    | some u => if isMobile then some (encodeURI (u ++ "&frame=false")) else none
    | none => none
  match followLabel with
  | none => (.jsonError 400 ERR_NO_LABEL, calls)
  | some label =>
    let pageTitle :=
      match followArg with
      | some a => if a ≠ "" then jsReplaceFirst PAGE_TITLE_WITH_NAME "{NAME}" a
          else PAGE_TITLE_DEFAULT
      | none => PAGE_TITLE_DEFAULT
    let fa := followArg.getD ""
    match followType with
    | none => (.redirect (encodeURI ("https://" ++ HOME_WEBSITE_URL)), calls)
    | some t =>
      let startCommand := startVerb t ++ " " ++ fa
      let smoothFlowCommand := jsReplaceFirst startCommand "Suivre" "Rechercher"
      (.page
        { followType := t
          followArg := fa
          followLabel := label
          pageTitle := pageTitle
          startCommand := startCommand
          smoothFlowCommand := smoothFlowCommand
          qrcodeImgSrc := qrcodeImgSrc
          whatsappBlockShown := cfg.hasWhatsapp
          telegramBlockShown := cfg.hasTelegram
          matrixBlockShown := cfg.hasMatrix
          tchapBlockShown := cfg.hasTchap
          whatsappLink := cfg.whatsappLinkBase.map
            (fun b => encodeURI (b ++ " " ++ smoothFlowCommand))
          telegramLink := cfg.telegramLinkBase.map
            (fun b => encodeURI (b ++ " " ++ smoothFlowCommand))
          matrixLink := cfg.matrixLinkBase
          tchapLink := cfg.tchapLinkBase }, calls)

/-- The `if (!qr_url)` fallback of the `/` handler (source lines 471-479): in
development the page is rendered anyway with `isMobile` forced and the label
replaced by `"Sample label"`; otherwise the handler redirects to
`encodeURI(APP_URL)`. -/
def slashFinish (cfg : Config) (followType : Option FollowType)
    (followArg followLabel qr_url : Option String) (isMobile : Bool)
    (calls : List DirCall) : SlashResponse × List DirCall :=
  match qr_url with
  | none =>
    if cfg.isDev then
      slashRender cfg followType followArg (some "Sample label") none true calls
    else
      (.redirect (encodeURI cfg.APP_URL), calls)
  | some u => slashRender cfg followType followArg followLabel (some u) isMobile calls

/-- The `function_tag` block of the `/` handler (source lines 446-463):
exclusivity check, optional tag lookup (only emptiness is inspected), then
`qr_url` is set while `followLabel` is left untouched (the tag-to-label
mapping is an acknowledged gap). -/
def slashTagStep (cfg : Config) (dir : Directory) (q : Query) (verify : Bool)
    (followType : Option FollowType) (followArg followLabel qr_url : Option String)
    (isMobile : Bool) (calls : List DirCall) : SlashResponse × List DirCall :=
  match q.function_tag with
  | none => slashFinish cfg followType followArg followLabel qr_url isMobile calls
  | some tg =>
    if followType.isSome then (.jsonError 400 ERR_EXCLUSIVE, calls)
    else if verify then
      match dir.callJORFSearchTag tg with
      | [] => (.jsonError 400 ERR_TAG_NOT_FOUND, calls ++ [.tag tg])
      | _ :: _ =>
        slashFinish cfg (some .function_tag) (some tg) followLabel
          (some (cfg.APP_URL_WITH_PORT_QR ++ "?function_tag=" ++ tg)) isMobile
          (calls ++ [.tag tg])
    else
      slashFinish cfg (some .function_tag) (some tg) followLabel
        (some (cfg.APP_URL_WITH_PORT_QR ++ "?function_tag=" ++ tg)) isMobile calls

/-- The `organisation_id` block of the `/` handler (source lines 414-444):
uppercase the identifier, exclusivity check, the skip-verification WikidataId
check (note the source rejects identifiers that start with `"Q"`), then the
verified lookup with its zero/many checks, taking `followArg` and
`followLabel` from the single match. -/
def slashOrgStep (cfg : Config) (dir : Directory) (q : Query) (verify : Bool)
    (followType : Option FollowType) (followArg followLabel qr_url : Option String)
    (isMobile : Bool) (calls : List DirCall) : SlashResponse × List DirCall :=
  match q.organisation_id with
  | none => slashTagStep cfg dir q verify followType followArg followLabel qr_url
      isMobile calls
  | some oid =>
    if followType.isSome then (.jsonError 400 ERR_EXCLUSIVE, calls)
    else if !verify && jsStartsWith (jsToUpperCase oid) "Q" then
      (.jsonError 400 ERR_VERIFICATION_MANDATORY, calls)
    else if verify then
      match dir.callJORFSearchOrganisationByWikidataId (jsToUpperCase oid) with
      | [] => (.jsonError 400 (ERR_ORG_NOT_FOUND (jsToUpperCase oid)),
          calls ++ [.organisation (jsToUpperCase oid)])
      | [r] =>
        slashTagStep cfg dir q verify (some .organisation) (some r.id) (some r.name)
          (some (cfg.APP_URL_WITH_PORT_QR ++ "?organisation=" ++ r.id)) isMobile
          (calls ++ [.organisation (jsToUpperCase oid)])
      | _ :: _ :: _ => (.jsonError 400 ERR_TOO_MANY,
          calls ++ [.organisation (jsToUpperCase oid)])
    else
      slashTagStep cfg dir q verify (some .organisation) (some (jsToUpperCase oid)) followLabel
        (some (cfg.APP_URL_WITH_PORT_QR ++ "?organisation=" ++ jsToUpperCase oid)) isMobile calls

/-- Shallow embedding of `app.get("/")` (source lines 379-573): the `verify`
parsing, the `name` block (token check, then verified person lookup replacing
`followArg` by `"prenom nom"` of the first match and setting `qr_url`; with
verification skipped `qr_url` stays null), then the organisation and tag
blocks, the `!qr_url` fallback, and the template-filling tail.  `isMobile` is
the result of the user-agent regular-expression test.  The second component
records the directory calls issued, in order. -/
def slashHandle (cfg : Config) (dir : Directory) (q : Query) (isMobile : Bool) :
    SlashResponse × List DirCall :=
  match q.name with
  | none => slashOrgStep cfg dir q (verifyParam q) none none none none isMobile []
  | some nm =>
    if (jsSplit nm " ").length < 2 then (.jsonError 400 ERR_NAME_WORDS, [])
    else if verifyParam q then
      match dir.callJORFSearchPeople nm with
      | [] => (.jsonError 400 (ERR_PERSON_NOT_FOUND nm), [.people nm])
      | r :: _ =>
        slashOrgStep cfg dir q (verifyParam q) (some .people)
          (some (r.prenom ++ " " ++ r.nom)) (some (r.prenom ++ " " ++ r.nom))
          (some (cfg.APP_URL_WITH_PORT_QR ++ "?name=" ++ (r.prenom ++ " " ++ r.nom)))
          isMobile [.people nm]
    else
      slashOrgStep cfg dir q (verifyParam q) (some .people) (some nm) (some nm) none
        isMobile []

/-! ## Concrete fixtures for evaluation -/

/-- A production-like configuration: `NODE_ENV` not `development`, port 3000,
Telegram and WhatsApp configured. -/
def sampleProdConfig : Config :=
  { isDev := false
    appPort := 3000
    telegramBotName := some "joel_bot"
    whatsappPhone := some "33600000000" }

/-- A directory oracle returning no match for anything. -/
def emptyDirectory : Directory :=
  { callJORFSearchPeople := fun _ => []
    callJORFSearchOrganisationByWikidataId := fun _ => []
    callJORFSearchTag := fun _ => [] }

/-- A directory oracle with the single organisation match of the spec's
end-to-end scenario: id `"Q12345"`, name `"Acme Org"`. -/
def acmeDirectory : Directory :=
  { callJORFSearchPeople := fun _ => []
    callJORFSearchOrganisationByWikidataId := fun i =>
      if i = "Q12345" then [⟨"Q12345", "Acme Org"⟩] else []
    callJORFSearchTag := fun _ => [] }

/-- A directory oracle that matches the lowercase id `"q123"` to an
organisation whose canonical id is the uppercase `"Q123"`. -/
def lowerOrgDirectory : Directory :=
  { callJORFSearchPeople := fun _ => []
    callJORFSearchOrganisationByWikidataId := fun i =>
      if i = "q123" then [⟨"Q123", "Acme Org"⟩] else []
    callJORFSearchTag := fun _ => [] }

/-- A directory oracle returning two organisation matches for every id. -/
def twoOrgDirectory : Directory :=
  { callJORFSearchPeople := fun _ => []
    callJORFSearchOrganisationByWikidataId := fun _ =>
      [⟨"Q1", "One"⟩, ⟨"Q2", "Two"⟩]
    callJORFSearchTag := fun _ => [] }

/-- A raw-mode `/qrcode` run (`frame=false`, explicit `size=800`) used as a
concrete instance of the fixed-bitmap-size theorem. -/
def rawTagFixture : QrLogoOutput :=
  ((qrcodeHandle sampleProdConfig emptyDirectory ⟨1000, 800⟩ ⟨100, 100⟩
    { function_tag := some "a", verify := some "", frame := some "false",
      size := some "800" }).1).rawOrDefault

/-- A frame-mode `/qrcode` run on a 1000x800 frame, used by the claim C8
evidence. -/
def framedTagFixture : FramedOutput :=
  ((qrcodeHandle sampleProdConfig emptyDirectory ⟨1000, 800⟩ ⟨100, 100⟩
    { function_tag := some "a", verify := some "" }).1).framedOrDefault

/-- The page rendered for the spec's organisation scenario. -/
def acmePage : SlashPage :=
  ((slashHandle sampleProdConfig acmeDirectory
    { organisation_id := some "q12345" } false).1).pageOrDefault

/-- Number of the three kind-specific parameters that are present in the
claims' sense (an empty string counting as absent). -/
def presentCount (q : Query) : Nat :=
  (if 0 < (q.name.getD "").length then 1 else 0) +
  (if 0 < (q.organisation_id.getD "").length then 1 else 0) +
  (if 0 < (q.function_tag.getD "").length then 1 else 0)

/-- Maximal runs of non-whitespace characters (structural recursion). -/
def wsTokensAux : List Char → List Char → List (List Char)
  | [], acc => if acc.isEmpty then [] else [acc.reverse]
  | c :: rest, acc =>
    if c.isWhitespace then
      if acc.isEmpty then wsTokensAux rest []
      else acc.reverse :: wsTokensAux rest []
    else wsTokensAux rest (c :: acc)

/-- Formalisation of the spec's words "whitespace-separated tokens" of a
name value, used to compare the claimed person-name rule with the code's
`name.split(" ")` rule. -/
def whitespaceTokens (s : String) : List String :=
  (wsTokensAux s.data []).map String.mk

/-! ## Lemmas on the numeric primitives -/

/-- Executable floor division agrees with the rational-valued
`Math.floor(n/d)` (both sides are `0` for `d = 0`). -/
theorem floorDiv_eq_floor (n : Int) (d : Nat) :
    floorDiv n d = mathFloorQ ((n : ℚ) / (d : ℚ)) := by
  rw [floorDiv, mathFloorQ, Int.fdiv_eq_ediv _ (Int.natCast_nonneg d),
    Rat.floor_intCast_div_natCast]

/-- Executable round division agrees with the rational-valued
`Math.round(n/d)` for a positive denominator. -/
theorem jsRoundDiv_eq (n : Int) (d : Nat) (hd : 0 < d) :
    jsRoundDiv n d = jsRoundQ ((n : ℚ) / (d : ℚ)) := by
  rw [jsRoundDiv, floorDiv_eq_floor, mathFloorQ, jsRoundQ]
  congr 1
  have hd' : ((d : ℚ)) ≠ 0 := by exact_mod_cast hd.ne'
  push_cast
  field_simp
  ring

/-- `jsRoundDiv` is bounded by an integer bound on the exact quotient: if
`n ≤ m * d` then `round(n/d) ≤ m` (for `d = 0` the value is `0`). -/
theorem jsRoundDiv_le {n : Int} {m d : Nat} (h : n ≤ (m : Int) * d) :
    jsRoundDiv n d ≤ (m : Int) := by
  rcases Nat.eq_zero_or_pos d with h0 | hpos
  · subst h0
    have hz : jsRoundDiv n 0 = 0 := by
      simp [jsRoundDiv, floorDiv, Int.fdiv_eq_ediv _ (le_refl 0)]
    rw [hz]
    exact Int.natCast_nonneg m
  · rw [jsRoundDiv, floorDiv_eq_floor, mathFloorQ, Int.floor_le_iff]
    have hd : (0 : ℚ) < (d : ℚ) := by exact_mod_cast hpos
    have hq : (n : ℚ) ≤ (m : ℚ) * (d : ℚ) := by exact_mod_cast h
    push_cast
    rw [div_lt_iff₀ (by linarith : (0 : ℚ) < 2 * (d : ℚ))]
    nlinarith

/-! ## Claim C9: logo overlay geometry -/

/-- The executable target logo width agrees with the rational formula
`Math.floor(qrSize * logoScale)`. -/
theorem targetWidth_eq_floor (S : Nat) (scale : ℚ) :
    floorDiv ((S : Int) * scale.num) scale.den = mathFloorQ ((S : ℚ) * scale) := by
  rw [floorDiv_eq_floor]
  unfold mathFloorQ
  congr 1
  have hden : ((scale.den : ℚ)) ≠ 0 := by exact_mod_cast scale.den_nz
  conv_rhs => rw [← Rat.num_div_den scale]
  push_cast
  field_simp

/-- The executable centring offset agrees with the rational formula
`Math.floor((S - w)/2)`. -/
theorem halfDiff_eq_floor (S w : Nat) :
    floorDiv ((S : Int) - (w : Int)) 2 = mathFloorQ (((S : ℚ) - (w : ℚ)) / 2) := by
  rw [floorDiv_eq_floor]
  unfold mathFloorQ
  congr 1
  push_cast
  ring

/-- Claim C9 (amended): for every logo overlay onto a QR of size `S` with
scale `logoScale ∈ [0, 1]`, the logo is resized to width
`floor(S * logoScale)` preserving aspect ratio, the centring offsets are
`floor((S - logoWidth)/2)` and `floor((S - logoHeight)/2)` for the resized
logo's actual dimensions, the left offset is never negative, and the top
offset is never negative provided the logo is at least as wide as it is tall
(for a sufficiently tall logo the top offset is negative, see the
counterexample). -/
theorem C9_amended (logo : Dims) (url : String) (S : Nat) (scale : ℚ)
    (hs0 : 0 ≤ scale) (hs1 : scale ≤ 1) :
    ((generateQrWithLogo logo url S scale).targetLogoWidth : Int)
        = mathFloorQ ((S : ℚ) * scale) ∧
    (generateQrWithLogo logo url S scale).logoDims.width
        = (generateQrWithLogo logo url S scale).targetLogoWidth ∧
    (generateQrWithLogo logo url S scale).logoLeft
        = mathFloorQ (((S : ℚ) - ((generateQrWithLogo logo url S scale).logoDims.width : ℚ)) / 2) ∧
    (generateQrWithLogo logo url S scale).logoTop
        = mathFloorQ (((S : ℚ) - ((generateQrWithLogo logo url S scale).logoDims.height : ℚ)) / 2) ∧
    0 ≤ (generateQrWithLogo logo url S scale).logoLeft ∧
    (logo.height ≤ logo.width → 0 ≤ (generateQrWithLogo logo url S scale).logoTop) := by
  have hfl0 : 0 ≤ mathFloorQ ((S : ℚ) * scale) := by
    unfold mathFloorQ
    rw [Int.floor_nonneg]
    positivity
  have hw : (floorDiv ((S : Int) * scale.num) scale.den).toNat ≤ S := by
    rw [Int.toNat_le, targetWidth_eq_floor]
    unfold mathFloorQ
    calc Int.floor ((S : ℚ) * scale) ≤ Int.floor ((S : ℚ)) := by
          apply Int.floor_le_floor
          calc (S : ℚ) * scale ≤ (S : ℚ) * 1 :=
                mul_le_mul_of_nonneg_left hs1 (Nat.cast_nonneg S)
            _ = (S : ℚ) := mul_one _
      _ = (S : Int) := Int.floor_natCast S
  refine ⟨?_, rfl, halfDiff_eq_floor S _, halfDiff_eq_floor S _, ?_, ?_⟩
  · show ((floorDiv ((S : Int) * scale.num) scale.den).toNat : Int) = _
    rw [Int.toNat_of_nonneg (by rw [targetWidth_eq_floor]; exact hfl0)]
    exact targetWidth_eq_floor S scale
  · show 0 ≤ floorDiv ((S : Int) - ((floorDiv ((S : Int) * scale.num) scale.den).toNat : Int)) 2
    rw [halfDiff_eq_floor]
    unfold mathFloorQ
    rw [Int.floor_nonneg]
    have : (((floorDiv ((S : Int) * scale.num) scale.den).toNat : Nat) : ℚ) ≤ (S : ℚ) := by
      exact_mod_cast hw
    linarith [this]
  · intro hhw
    show 0 ≤ floorDiv ((S : Int) -
        ((sharpResizeInsideWidth logo ((floorDiv ((S : Int) * scale.num) scale.den).toNat)).height : Int)) 2
    have hhS : (sharpResizeInsideWidth logo ((floorDiv ((S : Int) * scale.num) scale.den).toNat)).height ≤ S := by
      unfold sharpResizeInsideWidth
      refine le_trans (Int.toNat_le.mpr (jsRoundDiv_le ?_)) hw
      have h1 : (logo.height : Int) ≤ (logo.width : Int) := by exact_mod_cast hhw
      have h2 : (0 : Int) ≤ ((floorDiv ((S : Int) * scale.num) scale.den).toNat : Int) :=
        Int.natCast_nonneg _
      nlinarith
    rw [halfDiff_eq_floor]
    unfold mathFloorQ
    rw [Int.floor_nonneg]
    have : ((sharpResizeInsideWidth logo ((floorDiv ((S : Int) * scale.num) scale.den).toNat)).height : ℚ)
        ≤ (S : ℚ) := by exact_mod_cast hhS
    linarith [this]

/-- Witness for claim C9's amended theorem at the source defaults
(`S = 600`, `logoScale = 0.45`) and a square 100x100 logo. -/
theorem C9_witness :
    (0 : ℚ) ≤ GEN_LOGO_SCALE_DEFAULT ∧ GEN_LOGO_SCALE_DEFAULT ≤ 1 ∧
    (0 ≤ (generateQrWithLogo ⟨100, 100⟩ "https://example.org" 600 GEN_LOGO_SCALE_DEFAULT).logoLeft ∧
      ((100 : Nat) ≤ 100 →
        0 ≤ (generateQrWithLogo ⟨100, 100⟩ "https://example.org" 600 GEN_LOGO_SCALE_DEFAULT).logoTop)) :=
  ⟨by norm_num [GEN_LOGO_SCALE_DEFAULT], by norm_num [GEN_LOGO_SCALE_DEFAULT],
    (C9_amended ⟨100, 100⟩ "https://example.org" 600 GEN_LOGO_SCALE_DEFAULT
      (by norm_num [GEN_LOGO_SCALE_DEFAULT])
      (by norm_num [GEN_LOGO_SCALE_DEFAULT])).2.2.2.2⟩

/-- Counterexample for claim C9 as stated: with the source's own defaults
(`qrSize = 600`, `logoScale = 0.45 ≤ 1`) and a logo of 10x1000 pixels, the
resized logo is 270x27000 and the computed top offset is `-13200 < 0`. -/
theorem C9_counterexample :
    GEN_LOGO_SCALE_DEFAULT ≤ 1 ∧
    (generateQrWithLogo ⟨10, 1000⟩ "https://example.org" 600 GEN_LOGO_SCALE_DEFAULT).logoDims
      = ⟨270, 27000⟩ ∧
    (generateQrWithLogo ⟨10, 1000⟩ "https://example.org" 600 GEN_LOGO_SCALE_DEFAULT).logoTop
      = -13200 ∧
    (generateQrWithLogo ⟨10, 1000⟩ "https://example.org" 600 GEN_LOGO_SCALE_DEFAULT).logoTop < 0 := by
  refine ⟨by norm_num [GEN_LOGO_SCALE_DEFAULT], ?_, ?_, ?_⟩ <;> decide

/-! ## Structural lemmas on the `/qrcode` handler -/

/-- A raw image produced by `qrcodeRender` is the QR+logo bitmap generated
with the generator defaults (in particular `qrSize = 600`). -/
theorem qrcodeRender_raw {frame logo : Dims} {qr_url fl : Option String}
    {fe : Bool} {qcs : Int} {calls : List DirCall} {qr : QrLogoOutput}
    {calls' : List DirCall}
    (h : qrcodeRender frame logo qr_url fl fe qcs calls = (.rawImage qr, calls')) :
    qr.qrSize = GEN_QR_SIZE_DEFAULT ∧ fe = false := by
  unfold qrcodeRender at h
  split at h
  · simp at h
  · split at h
    · next hfe =>
      obtain ⟨h1, -⟩ := Prod.mk.injEq .. ▸ h
      cases h1
      exact ⟨rfl, by simpa using hfe⟩
    · simp at h

/-- A framed image produced by `qrcodeRender` composites the frame template
with the QR bitmap (generator defaults) and the dynamic text layer at the
source's computed offsets. -/
theorem qrcodeRender_framed {frame logo : Dims} {qr_url fl : Option String}
    {fe : Bool} {qcs : Int} {calls : List DirCall} {f : FramedOutput}
    {calls' : List DirCall}
    (h : qrcodeRender frame logo qr_url fl fe qcs calls = (.framedImage f, calls')) :
    fe = true ∧
    f.base = frame ∧
    f.qr.qrSize = GEN_QR_SIZE_DEFAULT ∧
    f.qrLeft = jsRoundDiv ((frame.width : Int) - qcs) 2 ∧
    f.qrTop = jsRoundDiv ((frame.height : Int) * 45) 100 ∧
    f.textLeft = 0 ∧
    f.textTop = jsRoundDiv ((frame.height : Int) * 35) 100 ∧
    f.text.width = frame.width ∧
    f.text.height = FONT_SIZE * 3 ∧
    f.text.label = fl ∧
    (f.text.textDisplayed = false ↔ f.text.label.getD "" = "") := by
  unfold qrcodeRender at h
  split at h
  · simp at h
  · split at h
    · simp at h
    · next hfe =>
      obtain ⟨h1, -⟩ := Prod.mk.injEq .. ▸ h
      cases h1
      refine ⟨by simpa using hfe, rfl, rfl, rfl, rfl, rfl, rfl, rfl, rfl, rfl, ?_⟩
      cases fl with
      | none => simp
      | some s => simp

/-- Every run of the `/qrcode` handler either returns a JSON error or reaches
the rendering tail `qrcodeRender` with the parsed size and frame flags; in
the latter case the size/frame conflict check has passed. -/
theorem qrcodeHandle_cases {cfg : Config} {dir : Directory} {frame logo : Dims}
    {q : Query} {r : QrcodeResponse} {calls : List DirCall}
    (h : qrcodeHandle cfg dir frame logo q = (r, calls)) :
    (∃ st m, r = QrcodeResponse.jsonError st m) ∨
    ((q.size.isSome && frameEnabledOf q) = false ∧
      ∃ qr_url fl calls0,
        qrcodeRender frame logo qr_url fl (frameEnabledOf q) (qrCodeSizeOf q) calls0
          = (r, calls)) := by
  unfold qrcodeHandle at h
  split at h
  · exact Or.inl ⟨_, _, (congrArg Prod.fst h).symm⟩
  next hconf =>
    have hc : (q.size.isSome && frameEnabledOf q) = false := by
      simpa using hconf
    unfold qrcodeSwitch at h
    repeat' split at h
    all_goals
      first
        | exact Or.inl ⟨_, _, (congrArg Prod.fst h).symm⟩
        | exact Or.inr ⟨hc, _, _, _, h⟩

/-! ## Claim C10: fixed QR bitmap size and frame centring size -/

/-- Claim C10 (confirmed): every QR bitmap generated by `/qrcode` (raw or
framed) has the fixed pixel size 600 — the parsed `size` parameter is never
passed to the generator — while the frame-mode horizontal centring offset is
computed from the separately parsed `qr_code_size` value, which in frame mode
is always its default 500 (a `size` parameter is rejected together with the
frame), not from the bitmap's actual 600. -/
theorem C10_fixed_bitmap_size (cfg : Config) (dir : Directory)
    (frame logo : Dims) (q : Query) :
    (∀ qr calls, qrcodeHandle cfg dir frame logo q = (.rawImage qr, calls) →
      qr.qrSize = 600) ∧
    (∀ f calls, qrcodeHandle cfg dir frame logo q = (.framedImage f, calls) →
      f.qr.qrSize = 600 ∧ q.size = none ∧
      f.qrLeft = jsRoundQ (((frame.width : ℚ) - (DEFAULT_QRCODE_SIZE : ℚ)) / 2)) := by
  constructor
  · intro qr calls h
    rcases qrcodeHandle_cases h with ⟨st, m, he⟩ | ⟨hc, qr_url, fl, calls0, he⟩
    · simp at he
    · exact (qrcodeRender_raw he).1
  · intro f calls h
    rcases qrcodeHandle_cases h with ⟨st, m, he⟩ | ⟨hc, qr_url, fl, calls0, he⟩
    · simp at he
    · obtain ⟨hfe, -, hsize, hleft, -⟩ := qrcodeRender_framed he
      have hnone : q.size = none := by
        rw [hfe] at hc
        simp at hc
        exact Option.not_isSome_iff_eq_none.mp (by simp [hc])
      refine ⟨hsize, hnone, ?_⟩
      have hqcs : qrCodeSizeOf q = (DEFAULT_QRCODE_SIZE : Int) := by
        rw [qrCodeSizeOf, hnone]
      rw [hleft, hqcs, jsRoundDiv_eq _ 2 (by norm_num)]
      congr 1
      push_cast
      ring

/-- Witness for claim C10 at a concrete raw-mode request: even with
`size=800` supplied, the generated bitmap is 600 pixels. -/
theorem C10_witness :
    qrcodeHandle sampleProdConfig emptyDirectory ⟨1000, 800⟩ ⟨100, 100⟩
        { function_tag := some "a", verify := some "", frame := some "false",
          size := some "800" }
      = (.rawImage rawTagFixture, []) ∧
    rawTagFixture.qrSize = 600 :=
  ⟨rfl,
    (C10_fixed_bitmap_size sampleProdConfig emptyDirectory ⟨1000, 800⟩ ⟨100, 100⟩
      { function_tag := some "a", verify := some "", frame := some "false",
        size := some "800" }).1 rawTagFixture [] rfl⟩

/-! ## Claim C8: frame-mode composition geometry -/

/-- Claim C8 (amended): in frame mode, for a frame of pixel dimensions
`(W, H)`, the composited output places the QR bitmap (whose own size is 600)
at `left = round((W - s)/2)` where `s` is the parsed size value — always its
default 500 in frame mode, not the bitmap's size — and `top = round(H*0.45)`;
the text layer has size `W x (3*fontSize)` and sits at `(0, round(H*0.35))`;
the flatten order is frame (base), then QR, then text; and the text layer is
always composited, with its text suppressed exactly when there is no label. -/
theorem C8_amended (cfg : Config) (dir : Directory) (frame logo : Dims)
    (q : Query) (f : FramedOutput) (calls : List DirCall)
    (h : qrcodeHandle cfg dir frame logo q = (.framedImage f, calls)) :
    q.size = none ∧
    f.base = frame ∧
    f.qr.qrSize = 600 ∧
    f.qrLeft = jsRoundQ (((frame.width : ℚ) - (DEFAULT_QRCODE_SIZE : ℚ)) / 2) ∧
    f.qrTop = jsRoundQ ((frame.height : ℚ) * (45/100)) ∧
    f.textLeft = 0 ∧
    f.textTop = jsRoundQ ((frame.height : ℚ) * (35/100)) ∧
    f.text.width = frame.width ∧
    f.text.height = 3 * FONT_SIZE ∧
    f.composites = [⟨.qrImage f.qr, f.qrLeft, f.qrTop⟩,
      ⟨.textSvg f.text, f.textLeft, f.textTop⟩] ∧
    (f.text.textDisplayed = false ↔ f.text.label.getD "" = "") := by
  rcases qrcodeHandle_cases h with ⟨st, m, he⟩ | ⟨hc, qr_url, fl, calls0, he⟩
  · simp at he
  · obtain ⟨hfe, hbase, hsize, hleft, htop, htl, htt, htw, hth, -, hdisp⟩ :=
      qrcodeRender_framed he
    have hnone : q.size = none := by
      rw [hfe] at hc
      simp at hc
      exact Option.not_isSome_iff_eq_none.mp (by simp [hc])
    have hqcs : qrCodeSizeOf q = (DEFAULT_QRCODE_SIZE : Int) := by
      rw [qrCodeSizeOf, hnone]
    refine ⟨hnone, hbase, hsize, ?_, ?_, htl, ?_, htw, by rw [hth]; ring, rfl, hdisp⟩
    · rw [hleft, hqcs, jsRoundDiv_eq _ 2 (by norm_num)]
      congr 1
      push_cast
      ring
    · rw [htop, jsRoundDiv_eq _ 100 (by norm_num)]
      congr 1
      push_cast
      ring
    · rw [htt, jsRoundDiv_eq _ 100 (by norm_num)]
      congr 1
      push_cast
      ring

/-- Counterexample for claim C8 as stated: on a 1000-pixel-wide frame the QR
bitmap has size 600, yet the handler places it at `left = 250 =
round((1000 - 500)/2)`, not at `round((1000 - 600)/2) = 200` as the claim's
formula (with `qrSize` the bitmap size) requires. -/
theorem C8_counterexample :
    qrcodeHandle sampleProdConfig emptyDirectory ⟨1000, 800⟩ ⟨100, 100⟩
        { function_tag := some "a", verify := some "" }
      = (.framedImage framedTagFixture, []) ∧
    framedTagFixture.qr.qrSize = 600 ∧
    framedTagFixture.base = ⟨1000, 800⟩ ∧
    framedTagFixture.qrLeft = 250 ∧
    jsRoundQ (((1000 : ℚ) - 600) / 2) = 200 ∧
    framedTagFixture.qrLeft ≠ jsRoundQ (((1000 : ℚ) - 600) / 2) := by
  have h200 : jsRoundQ (((1000 : ℚ) - 600) / 2) = 200 := by
    rw [jsRoundQ]
    norm_num
  refine ⟨rfl, by decide, by decide, by decide, h200, ?_⟩
  rw [h200]
  decide

/-- Witness for claim C8's amended theorem at the concrete frame-mode run. -/
theorem C8_witness :
    qrcodeHandle sampleProdConfig emptyDirectory ⟨1000, 800⟩ ⟨100, 100⟩
        { function_tag := some "a", verify := some "" }
      = (.framedImage framedTagFixture, []) ∧
    framedTagFixture.text.width = 1000 ∧
    (framedTagFixture.text.textDisplayed = false ↔
      framedTagFixture.text.label.getD "" = "") :=
  ⟨rfl,
    (C8_amended sampleProdConfig emptyDirectory ⟨1000, 800⟩ ⟨100, 100⟩
      { function_tag := some "a", verify := some "" } framedTagFixture [] rfl).2.2.2.2.2.2.2.1,
    (C8_amended sampleProdConfig emptyDirectory ⟨1000, 800⟩ ⟨100, 100⟩
      { function_tag := some "a", verify := some "" } framedTagFixture [] rfl).2.2.2.2.2.2.2.2.2.2⟩

/-! ## Structural lemmas on the `/` handler -/

/-- A rendered landing page determines its command and link fields from the
follow type, the follow argument and the configuration. -/
theorem slashRender_page {cfg : Config} {ft : Option FollowType}
    {fa fl qr : Option String} {im : Bool} {calls : List DirCall}
    {p : SlashPage} {calls' : List DirCall}
    (h : slashRender cfg ft fa fl qr im calls = (.page p, calls')) :
    ∃ t label, ft = some t ∧ fl = some label ∧
      p.followType = t ∧ p.followArg = fa.getD "" ∧ p.followLabel = label ∧
      p.startCommand = startVerb t ++ " " ++ fa.getD "" ∧
      p.smoothFlowCommand = jsReplaceFirst p.startCommand "Suivre" "Rechercher" ∧
      p.whatsappLink = cfg.whatsappLinkBase.map
        (fun b => encodeURI (b ++ " " ++ p.smoothFlowCommand)) ∧
      p.telegramLink = cfg.telegramLinkBase.map
        (fun b => encodeURI (b ++ " " ++ p.smoothFlowCommand)) := by
  unfold slashRender at h
  repeat' split at h
  all_goals obtain ⟨h1, -⟩ := Prod.mk.injEq .. ▸ h
  all_goals cases h1
  all_goals exact ⟨_, _, rfl, rfl, rfl, rfl, rfl, rfl, rfl, rfl, rfl⟩

/-- A page coming out of the `!qr_url` fallback comes from `slashRender`. -/
theorem slashFinish_page {cfg : Config} {ft : Option FollowType}
    {fa fl qr : Option String} {im : Bool} {calls : List DirCall}
    {p : SlashPage} {calls' : List DirCall}
    (h : slashFinish cfg ft fa fl qr im calls = (.page p, calls')) :
    ∃ fl2 qr2 im2, slashRender cfg ft fa fl2 qr2 im2 calls = (.page p, calls') := by
  unfold slashFinish at h
  split at h
  · split at h
    · exact ⟨_, _, _, h⟩
    · simp at h
  · exact ⟨_, _, _, h⟩

/-- A page coming out of the tag block comes from `slashFinish`. -/
theorem slashTagStep_page {cfg : Config} {dir : Directory} {q : Query}
    {v : Bool} {ft : Option FollowType} {fa fl qr : Option String} {im : Bool}
    {calls : List DirCall} {p : SlashPage} {calls' : List DirCall}
    (h : slashTagStep cfg dir q v ft fa fl qr im calls = (.page p, calls')) :
    ∃ ft2 fa2 fl2 qr2 calls2,
      slashFinish cfg ft2 fa2 fl2 qr2 im calls2 = (.page p, calls') := by
  unfold slashTagStep at h
  repeat' split at h
  all_goals
    first
      | simp at h
      | exact ⟨_, _, _, _, _, h⟩

/-- A page coming out of the organisation block comes from `slashFinish`. -/
theorem slashOrgStep_page {cfg : Config} {dir : Directory} {q : Query}
    {v : Bool} {ft : Option FollowType} {fa fl qr : Option String} {im : Bool}
    {calls : List DirCall} {p : SlashPage} {calls' : List DirCall}
    (h : slashOrgStep cfg dir q v ft fa fl qr im calls = (.page p, calls')) :
    ∃ ft2 fa2 fl2 qr2 calls2,
      slashFinish cfg ft2 fa2 fl2 qr2 im calls2 = (.page p, calls') := by
  unfold slashOrgStep at h
  repeat' split at h
  all_goals
    first
      | simp at h
      | exact slashTagStep_page h

/-- Every landing page produced by the `/` handler comes from `slashRender`
with the same configuration. -/
theorem slashHandle_page {cfg : Config} {dir : Directory} {q : Query}
    {im : Bool} {p : SlashPage} {calls : List DirCall}
    (h : slashHandle cfg dir q im = (.page p, calls)) :
    ∃ ft fa fl qr im2 calls2,
      slashRender cfg ft fa fl qr im2 calls2 = (.page p, calls) := by
  unfold slashHandle at h
  repeat' split at h
  all_goals
    first
      | simp at h
      | (obtain ⟨ft2, fa2, fl2, qr2, calls2, h2⟩ := slashOrgStep_page h
         obtain ⟨fl3, qr3, im3, h3⟩ := slashFinish_page h2
         exact ⟨_, _, _, _, _, _, h3⟩)

/-! ## Claim C7: start-command verbs and messenger deep links -/

/-- Claim C7 (confirmed): every rendered landing page's start command is
`<Verb> <arg>` with `Rechercher` for a person, `SuivreO` for an organisation
and `SuivreF` for a tag, and the command embedded in the WhatsApp/Telegram
deep links is the start command with its (first) `Suivre` occurrence
rewritten to `Rechercher`; in particular, for `organisation_id="q12345"`
with default verification and the single directory match
`{id:"Q12345", name:"Acme Org"}`, the resolved label is `"Acme Org"`, the
landing page command is `"SuivreO Q12345"` and the deep-link command is
`"RechercherO Q12345"`. -/
theorem C7_commands :
    (∀ (cfg : Config) (dir : Directory) (q : Query) (im : Bool) (p : SlashPage)
        (calls : List DirCall),
      slashHandle cfg dir q im = (.page p, calls) →
      p.startCommand = startVerb p.followType ++ " " ++ p.followArg ∧
      p.smoothFlowCommand = jsReplaceFirst p.startCommand "Suivre" "Rechercher" ∧
      p.whatsappLink = cfg.whatsappLinkBase.map
        (fun b => encodeURI (b ++ " " ++ p.smoothFlowCommand)) ∧
      p.telegramLink = cfg.telegramLinkBase.map
        (fun b => encodeURI (b ++ " " ++ p.smoothFlowCommand))) ∧
    ((slashHandle sampleProdConfig acmeDirectory
        { organisation_id := some "q12345" } false).1.pageLabel = some "Acme Org" ∧
      (slashHandle sampleProdConfig acmeDirectory
        { organisation_id := some "q12345" } false).1.pageStart = some "SuivreO Q12345" ∧
      (slashHandle sampleProdConfig acmeDirectory
        { organisation_id := some "q12345" } false).1.pageSmooth
          = some "RechercherO Q12345") := by
  constructor
  · intro cfg dir q im p calls h
    obtain ⟨ft, fa, fl, qr, im2, calls2, hr⟩ := slashHandle_page h
    obtain ⟨t, label, -, -, hpt, hpa, -, hcmd, hsm, hwa, htg⟩ := slashRender_page hr
    refine ⟨?_, hsm, hwa, htg⟩
    rw [hcmd, hpt, hpa]
  · exact ⟨by decide, by decide, by decide⟩

/-- Witness for claim C7's universally quantified part at the organisation
scenario. -/
theorem C7_witness :
    slashHandle sampleProdConfig acmeDirectory { organisation_id := some "q12345" } false
      = (.page acmePage, [.organisation "Q12345"]) ∧
    acmePage.startCommand = startVerb acmePage.followType ++ " " ++ acmePage.followArg :=
  ⟨by decide,
    (C7_commands.1 sampleProdConfig acmeDirectory { organisation_id := some "q12345" }
      false acmePage [.organisation "Q12345"] (by decide)).1⟩

/-! ## Claim C1: parameter exclusivity -/

/-- When the follow type is already set and another kind parameter is
supplied, the organisation/tag blocks of the `/` handler fail with the
exclusivity error. -/
theorem slashOrgStep_exclusive {cfg : Config} {dir : Directory} {q : Query}
    {v : Bool} {ft : Option FollowType} {fa fl qr : Option String} {im : Bool}
    {calls : List DirCall} (hft : ft.isSome = true)
    (hp : q.organisation_id.isSome ∨ q.function_tag.isSome) :
    (slashOrgStep cfg dir q v ft fa fl qr im calls).1
      = .jsonError 400 ERR_EXCLUSIVE := by
  unfold slashOrgStep
  rcases horg : q.organisation_id with _ | oid
  · rcases htag : q.function_tag with _ | tg
    · simp [horg, htag] at hp
    · simp only [horg]
      unfold slashTagStep
      simp [htag, hft]
  · simp [horg, hft]

/-- Claim C1 (amended): with two or more of `name`/`organisation_id`/
`function_tag` non-empty, resolution always fails with a 400 validation
error and no target resolves; the error is specifically the exclusivity
error (`AmbiguousTarget`) provided every parameter block processed before
the conflicting one succeeds: on `/qrcode` this only requires the name
(when present) to pass its token check (no directory call is made before the
check), while on `/` it also requires the earlier parameter's directory
lookup to succeed, because the blocks run in the order name, organisation,
tag with their lookups inline. -/
theorem C1_amended :
    (∀ (cfg : Config) (dir : Directory) (frame logo : Dims) (q : Query),
      (q.size = none ∨ q.frame = some "false") →
      (0 < (q.name.getD "").length → 2 ≤ (jsSplit (q.name.getD "") " ").length) →
      2 ≤ presentCount q →
      qrcodeHandle cfg dir frame logo q = (.jsonError 400 ERR_EXCLUSIVE, [])) ∧
    (∀ (cfg : Config) (dir : Directory) (q : Query) (im : Bool) (nm : String),
      q.name = some nm → 0 < nm.length → 2 ≤ (jsSplit nm " ").length →
      (verifyParam q = true → dir.callJORFSearchPeople nm ≠ []) →
      (q.organisation_id.isSome ∨ q.function_tag.isSome) →
      (slashHandle cfg dir q im).1 = .jsonError 400 ERR_EXCLUSIVE) ∧
    (∀ (cfg : Config) (dir : Directory) (q : Query) (im : Bool) (oid : String)
        (r : OrganisationRecord),
      q.name = none → q.organisation_id = some oid → q.function_tag.isSome →
      verifyParam q = true →
      dir.callJORFSearchOrganisationByWikidataId (jsToUpperCase oid) = [r] →
      (slashHandle cfg dir q im).1 = .jsonError 400 ERR_EXCLUSIVE) := by
  refine ⟨?_, ?_, ?_⟩
  · intro cfg dir frame logo q hsz hname hcount
    have hc : (q.size.isSome && frameEnabledOf q) = false := by
      rcases hsz with h | h
      · simp [h]
      · simp [frameEnabledOf, h]
    by_cases hn : 0 < (q.name.getD "").length <;>
      by_cases ho : 0 < (q.organisation_id.getD "").length <;>
      by_cases ht : 0 < (q.function_tag.getD "").length
    · simp [qrcodeHandle, hc, hn, ho, ht, qrcodeFt1, qrcodeFt2,
        Nat.not_lt.mpr (hname hn)]
    · simp [qrcodeHandle, hc, hn, ho, ht, qrcodeFt1, qrcodeFt2,
        Nat.not_lt.mpr (hname hn)]
    · simp [qrcodeHandle, hc, hn, ho, ht, qrcodeFt1, qrcodeFt2,
        Nat.not_lt.mpr (hname hn)]
    · exfalso
      simp [presentCount, hn, ho, ht] at hcount
    · simp [qrcodeHandle, hc, hn, ho, ht, qrcodeFt1, qrcodeFt2]
    · exfalso
      simp [presentCount, hn, ho, ht] at hcount
    · exfalso
      simp [presentCount, hn, ho, ht] at hcount
    · exfalso
      simp [presentCount, hn, ho, ht] at hcount
  · intro cfg dir q im nm hname hlen hsplit hver hpresent
    have hns : ¬((jsSplit nm " ").length < 2) := Nat.not_lt.mpr hsplit
    by_cases hv : verifyParam q = true
    · obtain ⟨r, rs, hr⟩ : ∃ r rs, dir.callJORFSearchPeople nm = r :: rs := by
        rcases hd : dir.callJORFSearchPeople nm with _ | ⟨r, rs⟩
        · exact absurd hd (hver hv)
        · exact ⟨r, rs, rfl⟩
      simp [slashHandle, hname, hns, hv, hr]
      exact slashOrgStep_exclusive rfl hpresent
    · simp [slashHandle, hname, hns, hv]
      exact slashOrgStep_exclusive rfl hpresent
  · intro cfg dir q im oid r hn ho htag hv hr
    obtain ⟨tg, htg⟩ := Option.isSome_iff_exists.mp htag
    simp [slashHandle, hn]
    unfold slashOrgStep
    simp [ho, hv, hr]
    unfold slashTagStep
    simp [htg]

/-- Counterexample for claim C1 as stated: `name="Jean"` (a single token) and
`organisation_id="Q1"` are both present, yet `/qrcode` fails with the
person-name error, not the exclusivity (`AmbiguousTarget`) error, because the
name block validates before the exclusivity check runs. -/
theorem C1_counterexample :
    2 ≤ presentCount { name := some "Jean", organisation_id := some "Q1" } ∧
    qrcodeHandle sampleProdConfig emptyDirectory ⟨1000, 800⟩ ⟨100, 100⟩
        { name := some "Jean", organisation_id := some "Q1" }
      = (.jsonError 400 ERR_NAME_WORDS, []) ∧
    ERR_NAME_WORDS ≠ ERR_EXCLUSIVE :=
  ⟨by decide, by decide, by decide⟩

/-- Witness for claim C1's amended theorem: a valid two-token name plus an
organisation id yields the exclusivity error with no directory call. -/
theorem C1_witness :
    2 ≤ presentCount { name := some "Jean Dupont", organisation_id := some "Q1" } ∧
    qrcodeHandle sampleProdConfig emptyDirectory ⟨1000, 800⟩ ⟨100, 100⟩
        { name := some "Jean Dupont", organisation_id := some "Q1" }
      = (.jsonError 400 ERR_EXCLUSIVE, []) :=
  ⟨by decide,
    C1_amended.1 sampleProdConfig emptyDirectory ⟨1000, 800⟩ ⟨100, 100⟩
      { name := some "Jean Dupont", organisation_id := some "Q1" }
      (Or.inl rfl) (fun _ => by decide) (by decide)⟩

/-! ## Claim C2: person-name token rule -/

/-- Claim C2 (amended): for every request whose `name` parameter, split on
the single space character (empty segments counting, as the code's
`name.split(" ")` does), yields fewer than two segments, resolution fails
with the `InvalidPersonName` error before any directory call is made — on
`/qrcode` provided the size/frame conflict check does not fire first, on `/`
unconditionally. -/
theorem C2_amended :
    (∀ (cfg : Config) (dir : Directory) (frame logo : Dims) (q : Query)
        (nm : String),
      q.name = some nm → 0 < nm.length → (jsSplit nm " ").length < 2 →
      (q.size = none ∨ q.frame = some "false") →
      qrcodeHandle cfg dir frame logo q = (.jsonError 400 ERR_NAME_WORDS, [])) ∧
    (∀ (cfg : Config) (dir : Directory) (q : Query) (im : Bool) (nm : String),
      q.name = some nm → (jsSplit nm " ").length < 2 →
      slashHandle cfg dir q im = (.jsonError 400 ERR_NAME_WORDS, [])) := by
  constructor
  · intro cfg dir frame logo q nm hn hlen hsplit hsz
    have hc : (q.size.isSome && frameEnabledOf q) = false := by
      rcases hsz with h | h
      · simp [h]
      · simp [frameEnabledOf, h]
    simp [qrcodeHandle, hc, hn, hlen, hsplit]
  · intro cfg dir q im nm hn hsplit
    simp [slashHandle, hn, hsplit]

/-- Counterexample for claim C2 as stated: `"Jean "` (trailing space) has a
single whitespace-separated token, yet `/qrcode` does not fail with
`InvalidPersonName`: it calls the directory and fails with the
person-not-found error, because `split(" ")` counts the empty trailing
segment. -/
theorem C2_counterexample :
    (whitespaceTokens "Jean ").length < 2 ∧
    qrcodeHandle sampleProdConfig emptyDirectory ⟨1000, 800⟩ ⟨100, 100⟩
        { name := some "Jean " }
      = (.jsonError 400 (ERR_PERSON_NOT_FOUND "Jean "), [.people "Jean "]) ∧
    ERR_PERSON_NOT_FOUND "Jean " ≠ ERR_NAME_WORDS :=
  ⟨by decide, by decide, by decide⟩

/-- Witness for claim C2's amended theorem at `name="Jean"`. -/
theorem C2_witness :
    (jsSplit "Jean" " ").length < 2 ∧
    qrcodeHandle sampleProdConfig emptyDirectory ⟨1000, 800⟩ ⟨100, 100⟩
        { name := some "Jean" }
      = (.jsonError 400 ERR_NAME_WORDS, []) :=
  ⟨by decide,
    C2_amended.1 sampleProdConfig emptyDirectory ⟨1000, 800⟩ ⟨100, 100⟩
      { name := some "Jean" } "Jean" rfl (by decide) (by decide) (Or.inl rfl)⟩

/-! ## Claim C3: unverified person scenario (code bug) -/

/-- Claim C3 evaluation at the failing input: with `verify="false"` the
handler still queries the directory (`Boolean("false")` is `true`), so with
no directory match the request fails 400 instead of rendering the page; and
with the only falsy form `verify=""` (verification genuinely skipped) the
person branch never sets `qr_url`, so in production the handler redirects to
the application URL instead of rendering a landing page with the
`Rechercher Jean Dupont` command. -/
theorem C3_code_evaluation :
    verifyParam { name := some "Jean Dupont", verify := some "false" } = true ∧
    slashHandle sampleProdConfig emptyDirectory
        { name := some "Jean Dupont", verify := some "false" } false
      = (.jsonError 400 (ERR_PERSON_NOT_FOUND "Jean Dupont"), [.people "Jean Dupont"]) ∧
    slashHandle sampleProdConfig emptyDirectory
        { name := some "Jean Dupont", verify := some "" } false
      = (.redirect "https://links.joel-officiel.fr", []) :=
  ⟨by decide, by decide, by decide⟩

/-! ## Claim C4: organisation id normalization and skip-verification shape (code bug) -/

/-- Claim C4 evaluation at the failing inputs: in the `/` handler with
verification skipped (`verify=""`), a WikidataId-shaped identifier
(`Q12345`) is rejected with the `VerificationRequired` error while a non-Q
identifier is accepted into the resolver and only fails later with the
missing-label error — the reverse of the claimed (and spec'd) shape rule,
whose non-negated form appears in `/qrcode` where verification can never be
skipped for organisations; and `/qrcode` does not uppercase the identifier:
it passes raw `"q12345"` to the directory. -/
theorem C4_code_evaluation :
    slashHandle sampleProdConfig emptyDirectory
        { organisation_id := some "Q12345", verify := some "" } false
      = (.jsonError 400 ERR_VERIFICATION_MANDATORY, []) ∧
    slashHandle sampleProdConfig emptyDirectory
        { organisation_id := some "abc", verify := some "" } false
      = (.jsonError 400 ERR_NO_LABEL, []) ∧
    (qrcodeHandle sampleProdConfig acmeDirectory ⟨1000, 800⟩ ⟨100, 100⟩
        { organisation_id := some "q12345" }).2
      = [.organisation "q12345"] ∧
    jsToUpperCase "q12345" = "Q12345" :=
  ⟨by decide, by decide, by decide, by decide⟩

/-! ## Claim C6: no-target fallback redirect -/

/-- Claim C6 (amended): when none of `name`/`organisation_id`/`function_tag`
is supplied, the landing-page handler never returns an error body and always
redirects to a fixed URL — but that URL is the application's own base URL
(`APP_URL`) in production, and the marketing site only in development (via
the `switch` default case). -/
theorem C6_amended (cfg : Config) (dir : Directory) (q : Query) (im : Bool)
    (hn : q.name = none) (ho : q.organisation_id = none)
    (ht : q.function_tag = none) :
    slashHandle cfg dir q im =
      (.redirect (encodeURI (if cfg.isDev then "https://" ++ HOME_WEBSITE_URL
        else cfg.APP_URL)), []) := by
  simp [slashHandle, hn]
  unfold slashOrgStep
  simp [ho]
  unfold slashTagStep
  simp [ht]
  unfold slashFinish
  by_cases hd : cfg.isDev
  · simp [hd]
    unfold slashRender
    simp
  · simp [hd]

/-- Counterexample for claim C6 as stated: in production the no-target
redirect goes to `https://links.joel-officiel.fr` (the application's own
URL), which differs from the fixed marketing URL
`https://joel-officiel.fr`. -/
theorem C6_counterexample :
    slashHandle sampleProdConfig emptyDirectory {} false
      = (.redirect "https://links.joel-officiel.fr", []) ∧
    ("https://links.joel-officiel.fr" : String) ≠ "https://" ++ HOME_WEBSITE_URL :=
  ⟨by decide, by decide⟩

/-- Witness for claim C6's amended theorem at the empty production query. -/
theorem C6_witness :
    slashHandle sampleProdConfig emptyDirectory {} false =
      (.redirect (encodeURI (if sampleProdConfig.isDev then
        "https://" ++ HOME_WEBSITE_URL else sampleProdConfig.APP_URL)), []) :=
  C6_amended sampleProdConfig emptyDirectory {} false rfl rfl rfl

/-! ## Claim C5: verified organisation lookup -/

/-- Claim C5 (amended): for every verified organisation lookup, zero
directory matches fail with `TargetNotFound`, more than one match fails with
`AmbiguousDirectoryMatch` (never picking the first), and with exactly one
match the label is taken from that match in both handlers and the canonical
id from that match in the landing-page handler — but the `/qrcode` handler
embeds the submitted identifier, not the match's id, in the QR URL. -/
theorem C5_amended :
    (∀ (cfg : Config) (dir : Directory) (frame logo : Dims) (q : Query)
        (oid : String),
      q.organisation_id = some oid → 0 < oid.length →
      (q.name.getD "").length = 0 → (q.function_tag.getD "").length = 0 →
      (q.size = none ∨ q.frame = some "false") →
      ((dir.callJORFSearchOrganisationByWikidataId oid = [] →
          qrcodeHandle cfg dir frame logo q
            = (.jsonError 400 (ERR_ORG_NOT_FOUND oid), [.organisation oid])) ∧
      (∀ (r₁ r₂ : OrganisationRecord) (rs : List OrganisationRecord),
          dir.callJORFSearchOrganisationByWikidataId oid = r₁ :: r₂ :: rs →
          qrcodeHandle cfg dir frame logo q
            = (.jsonError 400 ERR_TOO_MANY, [.organisation oid])) ∧
      (∀ r : OrganisationRecord,
          dir.callJORFSearchOrganisationByWikidataId oid = [r] →
          ((qrcodeHandle cfg dir frame logo q).1).qrOutput
            = some (generateQrWithLogo logo
                (encodeURI (cfg.APP_URL_WITH_PORT ++ "?&organisation=" ++ oid))
                GEN_QR_SIZE_DEFAULT GEN_LOGO_SCALE_DEFAULT) ∧
          ((qrcodeHandle cfg dir frame logo q).1).framedText
            = if frameEnabledOf q then
                some ⟨frame.width, FONT_SIZE * 3, some r.name, r.name != ""⟩
              else none))) ∧
    (∀ (cfg : Config) (dir : Directory) (q : Query) (im : Bool) (oid : String),
      q.name = none → q.organisation_id = some oid → verifyParam q = true →
      ((dir.callJORFSearchOrganisationByWikidataId (jsToUpperCase oid) = [] →
          (slashHandle cfg dir q im).1
            = .jsonError 400 (ERR_ORG_NOT_FOUND (jsToUpperCase oid))) ∧
      (∀ (r₁ r₂ : OrganisationRecord) (rs : List OrganisationRecord),
          dir.callJORFSearchOrganisationByWikidataId (jsToUpperCase oid)
            = r₁ :: r₂ :: rs →
          (slashHandle cfg dir q im).1 = .jsonError 400 ERR_TOO_MANY) ∧
      (∀ r : OrganisationRecord,
          dir.callJORFSearchOrganisationByWikidataId (jsToUpperCase oid) = [r] →
          q.function_tag = none →
          ((slashHandle cfg dir q im).1).pageArg = some r.id ∧
          ((slashHandle cfg dir q im).1).pageLabel = some r.name))) := by
  constructor
  · intro cfg dir frame logo q oid ho hol hn0 ht0 hsz
    have hc : (q.size.isSome && frameEnabledOf q) = false := by
      rcases hsz with h | h
      · simp [h]
      · simp [frameEnabledOf, h]
    have hgo : q.organisation_id.getD "" = oid := by rw [ho]; rfl
    refine ⟨?_, ?_, ?_⟩
    · intro hd
      simp [qrcodeHandle, hc, hn0, ht0, hgo, hol, qrcodeFt1, qrcodeFt2,
        qrcodeFollowType, qrcodeVerify2, qrcodeSwitch, hd]
    · intro r₁ r₂ rs hd
      simp [qrcodeHandle, hc, hn0, ht0, hgo, hol, qrcodeFt1, qrcodeFt2,
        qrcodeFollowType, qrcodeVerify2, qrcodeSwitch, hd]
    · intro r hd
      by_cases hf : frameEnabledOf q = true
      · have hs : q.size.isSome = false := by
          rw [hf, Bool.and_true] at hc
          exact hc
        constructor
        · simp [qrcodeHandle, hc, hs, hn0, ht0, hgo, hol, qrcodeFt1, qrcodeFt2,
            qrcodeFollowType, qrcodeVerify2, qrcodeSwitch, hd, qrcodeRender, hf,
            QrcodeResponse.qrOutput]
        · simp [qrcodeHandle, hc, hs, hn0, ht0, hgo, hol, qrcodeFt1, qrcodeFt2,
            qrcodeFollowType, qrcodeVerify2, qrcodeSwitch, hd, qrcodeRender, hf,
            QrcodeResponse.framedText]
      · constructor
        · simp [qrcodeHandle, hc, hn0, ht0, hgo, hol, qrcodeFt1, qrcodeFt2,
            qrcodeFollowType, qrcodeVerify2, qrcodeSwitch, hd, qrcodeRender, hf,
            QrcodeResponse.qrOutput]
        · simp [qrcodeHandle, hc, hn0, ht0, hgo, hol, qrcodeFt1, qrcodeFt2,
            qrcodeFollowType, qrcodeVerify2, qrcodeSwitch, hd, qrcodeRender, hf,
            QrcodeResponse.framedText]
  · intro cfg dir q im oid hn ho hv
    refine ⟨?_, ?_, ?_⟩
    · intro hd
      simp [slashHandle, hn]
      unfold slashOrgStep
      simp [ho, hv, hd]
    · intro r₁ r₂ rs hd
      simp [slashHandle, hn]
      unfold slashOrgStep
      simp [ho, hv, hd]
    · intro r hd htag
      simp [slashHandle, hn]
      unfold slashOrgStep
      simp [ho, hv, hd]
      unfold slashTagStep
      simp [htag]
      unfold slashFinish slashRender
      simp [SlashResponse.pageArg, SlashResponse.pageLabel]

/-- Counterexample for claim C5 as stated: with the submitted lowercase id
`"q123"` and a single directory match whose canonical id is `"Q123"`, the
`/qrcode` handler embeds the raw `"q123"` in the QR URL — the canonical id
is not taken from the match. -/
theorem C5_counterexample :
    lowerOrgDirectory.callJORFSearchOrganisationByWikidataId "q123"
      = [⟨"Q123", "Acme Org"⟩] ∧
    ((qrcodeHandle sampleProdConfig lowerOrgDirectory ⟨1000, 800⟩ ⟨100, 100⟩
        { organisation_id := some "q123", frame := some "false" }).1).qrOutput.map
        QrLogoOutput.url
      = some "https://links.joel-officiel.fr:3000?&organisation=q123" ∧
    ((qrcodeHandle sampleProdConfig lowerOrgDirectory ⟨1000, 800⟩ ⟨100, 100⟩
        { organisation_id := some "q123", frame := some "false" }).1).qrOutput.map
        QrLogoOutput.url
      ≠ some "https://links.joel-officiel.fr:3000?&organisation=Q123" :=
  ⟨by decide, by decide, by decide⟩

/-- Witness for claim C5's amended theorem at the single-match organisation
scenario on the landing page. -/
theorem C5_witness :
    acmeDirectory.callJORFSearchOrganisationByWikidataId (jsToUpperCase "q12345")
      = [⟨"Q12345", "Acme Org"⟩] ∧
    ((slashHandle sampleProdConfig acmeDirectory
        { organisation_id := some "q12345" } false).1).pageArg = some "Q12345" ∧
    ((slashHandle sampleProdConfig acmeDirectory
        { organisation_id := some "q12345" } false).1).pageLabel
      = some "Acme Org" :=
  ⟨by decide,
    ((C5_amended.2 sampleProdConfig acmeDirectory
        { organisation_id := some "q12345" } false "q12345" rfl rfl (by decide)).2.2
      ⟨"Q12345", "Acme Org"⟩ (by decide) rfl).1,
    ((C5_amended.2 sampleProdConfig acmeDirectory
        { organisation_id := some "q12345" } false "q12345" rfl rfl (by decide)).2.2
      ⟨"Q12345", "Acme Org"⟩ (by decide) rfl).2⟩

end QrJoel

